import Mathlib

/-!
# Verification of the Lexis license bot redemption core

Shallow embedding of the redemption workflow of the Discord license bot:
the SQLite access layer (`src/api/database.js`), the SellAuth invoice
verifier (`src/api/sellauth.js`), and the two redemption entry points
(the `/redeem` slash command and the `redeem_modal` modal handler).

Timestamps are modelled as integers counting milliseconds, matching the
JavaScript `Date.now()` arithmetic in the source.  Database state is a
triple of lists mirroring the three tables `redeemed_invoices`,
`rate_limits` and `audit_log`; the `UNIQUE` constraints of the schema
are reflected in the insert operations.  Remote HTTP calls (SellAuth
lookup, KeyAuth issuance) are parameters of the workflow functions: the
orchestrator is a pure function of the initial database state and the
responses the collaborators would give.
-/

namespace LexisBot

/-- Milliseconds per hour (`60 * 60 * 1000` in the JS source). -/
def msPerHour : Int := 3600000

/-- Milliseconds per day (`24 * 60 * 60 * 1000` in the JS source). -/
def msPerDay : Int := 86400000

/-- A row of the `redeemed_invoices` table (`database.js`, `createTables`).
Snapshot columns (`sellauth_data`, `keyauth_response`, `user_metadata`)
hold `JSON.stringify` blobs; they are kept as opaque strings. -/
structure RedRecord where
  invoiceId : String
  discordUserId : String
  discordUsername : Option String
  licenseKey : String
  productName : Option String
  productId : Option String
  amount : Option Rat
  sellauthData : String
  keyauthResponse : String
  userMetadata : String
  deriving Repr, DecidableEq

/-- A row of the `rate_limits` table (`database.js`, `createTables`);
`UNIQUE(user_id, action)`. -/
structure RateRow where
  userId : String
  action : String
  attempts : Nat
  firstAttempt : Int
  lastAttempt : Int
  resetAfter : Int
  deriving Repr, DecidableEq

/-- A row of the `audit_log` table (`database.js`, `createTables`). -/
structure AuditRow where
  userId : String
  action : String
  data : String
  deriving Repr, DecidableEq

/-- The persistent state: the three tables the bot creates. -/
structure DbState where
  redeemed : List RedRecord
  rateLimits : List RateRow
  audit : List AuditRow
  deriving Repr, DecidableEq

/-- Database-layer failures: the `SQLITE_CONSTRAINT` unique-violation a
second insert of the same `invoice_id` raises, and generic storage
faults. -/
inductive DbError
  | uniqueConstraint
  | storage
  deriving Repr, DecidableEq

/-- `Database.isInvoiceRedeemed`: `SELECT id FROM redeemed_invoices WHERE
invoice_id = ?`, truthiness of the row. -/
def isInvoiceRedeemed (s : DbState) (invoiceId : String) : Bool :=
  s.redeemed.any (fun r => r.invoiceId == invoiceId)

/-- `Database.markInvoiceRedeemed`: `INSERT INTO redeemed_invoices ...`.
The `UNIQUE` constraint on `invoice_id` makes the insert fail when a row
with the same invoice id is already present; the JS rethrows that error
to the caller. -/
def markInvoiceRedeemed (s : DbState) (r : RedRecord) : Except DbError DbState :=
  if s.redeemed.any (fun r0 => r0.invoiceId == r.invoiceId) then
    .error .uniqueConstraint
  else
    .ok { s with redeemed := s.redeemed ++ [r] }

/-- The `WHERE` predicate of the `SELECT` in `Database.checkRateLimit`:
`user_id = ? AND action = ? AND first_attempt > ?`, the parameter being
`now - timeWindowHours` hours. -/
def liveRatePred (now windowHours : Int) (userId action : String) (r : RateRow) : Bool :=
  r.userId == userId && r.action == action &&
    decide (now - windowHours * msPerHour < r.firstAttempt)

/-- `INSERT OR REPLACE INTO rate_limits`: under `UNIQUE(user_id, action)`
this drops any row with the same key and inserts the new one. -/
def insertOrReplaceRate (rows : List RateRow) (row : RateRow) : List RateRow :=
  rows.filter (fun r => !(r.userId == row.userId && r.action == row.action)) ++ [row]

/-- `UPDATE rate_limits SET attempts = attempts + 1, last_attempt =
CURRENT_TIMESTAMP WHERE user_id = ? AND action = ?`. -/
def incrementRate (rows : List RateRow) (userId action : String) (now : Int) : List RateRow :=
  rows.map (fun r =>
    if r.userId == userId && r.action == action then
      { r with attempts := r.attempts + 1, lastAttempt := now }
    else r)

/-- The object `Database.checkRateLimit` resolves with. -/
structure RateLimitResult where
  allowed : Bool
  attempts : Nat
  maxAttempts : Nat
  resetAfter : Int
  deriving Repr, DecidableEq

/-- `Database.checkRateLimit(userId, action, maxAttempts, timeWindowHours)`:
select the live counter; if none, insert-or-replace a fresh one with
`attempts = 1` and `reset_after = now + window` and allow; if its
attempts have reached the cap, deny without writing; otherwise increment
and allow. -/
def checkRateLimit (s : DbState) (now : Int) (userId action : String)
    (maxAttempts : Nat) (windowHours : Int) : RateLimitResult × DbState :=
  match s.rateLimits.find? (liveRatePred now windowHours userId action) with
  | none =>
      let reset := now + windowHours * msPerHour
      let fresh : RateRow :=
        { userId := userId, action := action, attempts := 1,
          firstAttempt := now, lastAttempt := now, resetAfter := reset }
      ({ allowed := true, attempts := 1, maxAttempts := maxAttempts, resetAfter := reset },
       { s with rateLimits := insertOrReplaceRate s.rateLimits fresh })
  | some row =>
      if maxAttempts ≤ row.attempts then
        ({ allowed := false, attempts := row.attempts, maxAttempts := maxAttempts,
           resetAfter := row.resetAfter }, s)
      else
        ({ allowed := true, attempts := row.attempts + 1, maxAttempts := maxAttempts,
           resetAfter := row.resetAfter },
         { s with rateLimits := incrementRate s.rateLimits userId action now })

/-- The bare `INSERT INTO audit_log` inside `Database.logAction`; the
`storageFails` flag stands for the storage layer rejecting the write. -/
def auditInsert (s : DbState) (storageFails : Bool) (userId action data : String) :
    Except DbError DbState :=
  if storageFails then .error .storage
  else .ok { s with audit := s.audit ++ [{ userId := userId, action := action, data := data }] }

/-- `Database.logAction`: the insert is wrapped in `try/catch` and the
catch block only logs — audit failures are never rethrown. -/
def logAction (s : DbState) (storageFails : Bool) (userId action data : String) : DbState :=
  match auditInsert s storageFails userId action data with
  | .error _ => s
  | .ok s' => s'

/-! ## SellAuth invoice verification (`src/api/sellauth.js`) -/

/-- The invoice payload SellAuth returns
(`id, paid, status, product_name, product_id, amount, currency,
customer_email, created_at`); `created_at` is modelled as the epoch
milliseconds `new Date(created_at)` yields.  `amount` is `none` when the
field is absent/null. -/
structure Invoice where
  id : String
  paid : Bool
  status : String
  productName : String
  productId : String
  amount : Option Rat
  currency : String
  customerEmail : String
  createdAt : Int
  deriving Repr, DecidableEq

/-- The throw sites of `SellAuthAPI.sanitizeInvoiceId`: these are
input-validation failures (the fault of the caller), a type of their own,
disjoint from the remote-lookup error kinds below. -/
inductive InvalidInputError
  | invalidFormat
  | badLength
  | invalidChars
  deriving Repr, DecidableEq

/-- The character class kept by the regex replace
`clean.replace` call with pattern `[^a-zA-Z0-9\-_]` and empty replacement. -/
def allowedChar (c : Char) : Bool :=
  c.isAlpha || c.isDigit || c == '-' || c == '_'

/-- Strip every character outside `[a-zA-Z0-9_-]`. -/
def stripDisallowed (s : String) : String :=
  String.mk (s.toList.filter allowedChar)

/-- `String.prototype.trim`: drop leading and trailing whitespace. -/
def jsTrim (s : String) : String :=
  String.mk (((s.toList.dropWhile Char.isWhitespace).reverse.dropWhile
    Char.isWhitespace).reverse)

/-- `SellAuthAPI.sanitizeInvoiceId`: reject a missing/empty id, trim,
reject a trimmed length outside [5,50], strip disallowed characters,
reject if nothing is left, else return the cleaned id. -/
def sanitizeInvoiceId (invoiceId : String) : Except InvalidInputError String :=
  if invoiceId == "" then .error .invalidFormat
  else
    let clean := jsTrim invoiceId
    if clean.length < 5 || 50 < clean.length then .error .badLength
    else
      let stripped := stripDisallowed clean
      if stripped == "" then .error .invalidChars
      else .ok stripped

/-- The object `SellAuthAPI.validateInvoice` returns. -/
structure ValidationResult where
  valid : Bool
  reason : String
  deriving Repr, DecidableEq

/-- `SellAuthAPI.validateInvoice`: paid check, then 30-day age check
against a rolling now, then amount sanity check, in that order. -/
def validateInvoice (now : Int) (inv : Invoice) : ValidationResult :=
  if !inv.paid || inv.status != "paid" then
    { valid := false,
      reason := "Invoice is not marked as paid. Please complete your payment first." }
  else if inv.createdAt < now - 30 * msPerDay then
    { valid := false,
      reason := "This invoice is too old to redeem. Invoices must be redeemed within 30 days." }
  else
    match inv.amount with
    | none => { valid := false, reason := "Invalid invoice amount." }
    | some a =>
        if a ≤ 0 then { valid := false, reason := "Invalid invoice amount." }
        else { valid := true, reason := "Invoice is valid and can be redeemed." }

/-- What the storefront HTTP call can come back with: a payload, a non-2xx
status with a message (`error.response`), or no response at all. -/
inductive SellAuthResponse
  | payload (inv : Invoice)
  | httpError (status : Nat) (message : String)
  | noResponse
  deriving Repr, DecidableEq

/-- The object `SellAuthAPI.verifyInvoice` resolves with. -/
structure VerifyResult where
  valid : Bool
  reason : String
  error : Option String
  invoiceData : Option Invoice
  deriving Repr, DecidableEq

/-- The `switch (status)` in the catch block of `verifyInvoice`. -/
def classifyHttpError (status : Nat) (message : String) : VerifyResult :=
  if status == 404 then
    { valid := false, reason := "Invoice not found. Please check your invoice ID.",
      error := some "INVOICE_NOT_FOUND", invoiceData := none }
  else if status == 401 then
    { valid := false, reason := "Authentication failed. Please contact support.",
      error := some "AUTHENTICATION_FAILED", invoiceData := none }
  else if status == 403 then
    { valid := false, reason := "Access denied. Please contact support.",
      error := some "ACCESS_DENIED", invoiceData := none }
  else if status == 429 then
    { valid := false, reason := "Rate limit exceeded. Please try again later.",
      error := some "RATE_LIMITED", invoiceData := none }
  else
    { valid := false, reason := "API Error: " ++ message,
      error := some "API_ERROR", invoiceData := none }

/-- The fall-through return of the catch block of `verifyInvoice`, taken for
any thrown error without an HTTP `response` attached. -/
def noResponseResult : VerifyResult :=
  { valid := false, reason := "Unable to verify invoice. Please try again later.",
    error := some "NETWORK_ERROR", invoiceData := none }

/-- `SellAuthAPI.verifyInvoice`: sanitize the raw id (a throw here has no
`error.response`, so the catch classifies it as `NETWORK_ERROR`), look
the *sanitized* id up remotely, map HTTP failures per status code, check
the payload has an `id`, then run business validation. -/
def verifyInvoice (now : Int) (lookup : String → SellAuthResponse)
    (invoiceId : String) : VerifyResult :=
  match sanitizeInvoiceId invoiceId with
  | .error _ => noResponseResult
  | .ok cleanInvoiceId =>
      match lookup cleanInvoiceId with
      | .noResponse => noResponseResult
      | .httpError status message => classifyHttpError status message
      | .payload invoiceData =>
          if invoiceData.id == "" then noResponseResult
          else
            let verification := validateInvoice now invoiceData
            { valid := verification.valid, reason := verification.reason,
              error := none, invoiceData := some invoiceData }

/-! ## The two redemption entry points

`redeem.execute` (the `/redeem` slash command, `src/bot/commands/redeem.js`)
and `handleModalSubmit` (the `redeem_modal` branch of the interaction
handler).  Each is a pure function of the initial database state, the
timestamp, and an environment holding the collaborator responses: the
storefront lookup (a function of the sanitized id), the KeyAuth issuance
result, whether audit inserts fail, and an optional record committed by a
concurrent task in the window between the fail-fast duplicate check and
the authoritative insert. -/

/-- `config.security.rateLimits.redemptionsPerDay` (`config.js`). -/
def redemptionsPerDay : Nat := 1

/-- What `keyauth.createLicenseForRedemption` resolves with, as consumed
by both entry points: `{success, licenseKey, keyAuthResponse, error}`. -/
structure IssueResult where
  success : Bool
  licenseKey : String
  keyAuthResponse : String
  error : Option String
  deriving Repr, DecidableEq

/-- The external world a single redemption run interacts with. -/
structure Env where
  lookup : String → SellAuthResponse
  issue : IssueResult
  auditFails : Bool
  concurrentInsert : Option RedRecord

/-- A successful `markInvoiceRedeemed` of a concurrent task, committed while
this task is suspended between its duplicate check and its own insert;
the insert of the rival task itself respects the unique constraint. -/
def applyConcurrent (s : DbState) : Option RedRecord → DbState
  | none => s
  | some r =>
      if s.redeemed.any (fun r0 => r0.invoiceId == r.invoiceId) then s
      else { s with redeemed := s.redeemed ++ [r] }

/-- The observable steps of a run, in order: which collaborator calls the
workflow actually made. -/
inductive Event
  | rateLimitCheck
  | duplicateCheck
  | verifyCall
  | issueCall
  | recordCall
  | auditWrite (action : String)
  deriving Repr, DecidableEq

/-- The discriminated user-facing outcome a run ends in (one per distinct
embed the handlers reply with). -/
inductive Outcome
  | rateLimited (attempts maxAttempts : Nat) (resetAfter : Int)
  | alreadyRedeemed
  | verificationFailed (reason : String) (error : Option String)
  | issuanceFailed (error : Option String)
  | success (licenseKey : String)
  | unexpectedError
  deriving Repr, DecidableEq

/-- Result of one redemption run: outcome, final store, call trace. -/
structure RunResult where
  outcome : Outcome
  state : DbState
  events : List Event
  deriving Repr

/-- The row `markInvoiceRedeemed` builds from its arguments in the slash
path: raw invoice id, user id, the issued key, the verified invoice
fields, and stringified snapshots. -/
def buildRecord (invoiceId userId : String) (username : Option String)
    (licenseKey : String) (invoiceData : Option Invoice)
    (keyAuthResponse : String) (userMetadata : String) : RedRecord :=
  { invoiceId := invoiceId
    discordUserId := userId
    discordUsername := username
    licenseKey := licenseKey
    productName := invoiceData.map (fun i => i.productName)
    productId := invoiceData.map (fun i => i.productId)
    amount := invoiceData.bind (fun i => i.amount)
    sellauthData := "sellauth_data"
    keyauthResponse := keyAuthResponse
    userMetadata := userMetadata }

/-- `redeem.execute` (`/redeem` slash command).  Steps, as in the source:
rate limit (action `redeem`, `redemptionsPerDay` per 24 h); duplicate check on
the *raw* id; SellAuth verification (which sanitizes internally); KeyAuth
issuance; `markInvoiceRedeemed` on the raw id.  A throw from the insert
is caught only by the top-level catch, which replies with the generic
unexpected-error embed and logs `redemption_error`.  The verification-
and issuance-failure branches log `redemption_failed` and
`license_creation_failed`; success logs `redemption_success`. -/
def redeemExecute (now : Int) (userId userName invoiceId : String)
    (env : Env) (s : DbState) : RunResult :=
  let rl := checkRateLimit s now userId "redeem" redemptionsPerDay 24
  let s1 := rl.2
  if !rl.1.allowed then
    { outcome := .rateLimited rl.1.attempts rl.1.maxAttempts rl.1.resetAfter,
      state := s1, events := [.rateLimitCheck] }
  else if isInvoiceRedeemed s1 invoiceId then
    { outcome := .alreadyRedeemed, state := s1,
      events := [.rateLimitCheck, .duplicateCheck] }
  else
    let s2 := applyConcurrent s1 env.concurrentInsert
    let invoiceVerification := verifyInvoice now env.lookup invoiceId
    if !invoiceVerification.valid then
      { outcome := .verificationFailed invoiceVerification.reason invoiceVerification.error,
        state := logAction s2 env.auditFails userId "redemption_failed" invoiceId,
        events := [.rateLimitCheck, .duplicateCheck, .verifyCall,
                   .auditWrite "redemption_failed"] }
    else
      let licenseResult := env.issue
      if !licenseResult.success then
        { outcome := .issuanceFailed licenseResult.error,
          state := logAction s2 env.auditFails userId "license_creation_failed" invoiceId,
          events := [.rateLimitCheck, .duplicateCheck, .verifyCall, .issueCall,
                     .auditWrite "license_creation_failed"] }
      else
        match markInvoiceRedeemed s2
            (buildRecord invoiceId userId (some userName) licenseResult.licenseKey
              invoiceVerification.invoiceData licenseResult.keyAuthResponse
              "discord_bot") with
        | .error _ =>
            { outcome := .unexpectedError,
              state := logAction s2 env.auditFails userId "redemption_error" invoiceId,
              events := [.rateLimitCheck, .duplicateCheck, .verifyCall, .issueCall,
                         .recordCall, .auditWrite "redemption_error"] }
        | .ok s3 =>
            { outcome := .success licenseResult.licenseKey,
              state := logAction s3 env.auditFails userId "redemption_success" invoiceId,
              events := [.rateLimitCheck, .duplicateCheck, .verifyCall, .issueCall,
                         .recordCall, .auditWrite "redemption_success"] }

/-- `handleModalSubmit` for `redeem_modal` (interaction handler).  Same
stages, but the rate-limit action kind is `license_redemption` with a
literal cap of 1 per 24 h, the failure branches write no audit entries,
a throw from the insert is answered by the catch of the modal handler (generic
error embed, no audit), and success logs `redemption_success_modal`. -/
def modalExecute (now : Int) (userId userName invoiceId : String)
    (env : Env) (s : DbState) : RunResult :=
  let rl := checkRateLimit s now userId "license_redemption" 1 24
  let s1 := rl.2
  if !rl.1.allowed then
    { outcome := .rateLimited rl.1.attempts rl.1.maxAttempts rl.1.resetAfter,
      state := s1, events := [.rateLimitCheck] }
  else if isInvoiceRedeemed s1 invoiceId then
    { outcome := .alreadyRedeemed, state := s1,
      events := [.rateLimitCheck, .duplicateCheck] }
  else
    let s2 := applyConcurrent s1 env.concurrentInsert
    let verificationResult := verifyInvoice now env.lookup invoiceId
    if !verificationResult.valid then
      { outcome := .verificationFailed verificationResult.reason verificationResult.error,
        state := s2,
        events := [.rateLimitCheck, .duplicateCheck, .verifyCall] }
    else
      let licenseResult := env.issue
      if !licenseResult.success then
        { outcome := .issuanceFailed licenseResult.error, state := s2,
          events := [.rateLimitCheck, .duplicateCheck, .verifyCall, .issueCall] }
      else
        match markInvoiceRedeemed s2
            (buildRecord invoiceId userId (some userName) licenseResult.licenseKey
              verificationResult.invoiceData licenseResult.keyAuthResponse
              "modal") with
        | .error _ =>
            { outcome := .unexpectedError, state := s2,
              events := [.rateLimitCheck, .duplicateCheck, .verifyCall, .issueCall,
                         .recordCall] }
        | .ok s3 =>
            { outcome := .success licenseResult.licenseKey,
              state := logAction s3 env.auditFails userId "redemption_success_modal" invoiceId,
              events := [.rateLimitCheck, .duplicateCheck, .verifyCall, .issueCall,
                         .recordCall, .auditWrite "redemption_success_modal"] }

/-! ## Concrete fixtures

Closed sample data used by witnesses and counterexamples: a paid
invoice matching the end-to-end scenario of the spec, environments for the
happy path, an issuance failure, and a lost duplicate race, and small
store states. -/

/-- A paid, fresh, positively-priced invoice. -/
def cInvoice : Invoice :=
  { id := "INV12345", paid := true, status := "paid", productName := "UG",
    productId := "p1", amount := some 20, currency := "USD",
    customerEmail := "buyer@example.com", createdAt := 1000 }

/-- A storefront that answers every lookup with `cInvoice`. -/
def cLookup : String → SellAuthResponse := fun _ => .payload cInvoice

/-- A KeyAuth success. -/
def cIssueOk : IssueResult :=
  { success := true, licenseKey := "KEY-1", keyAuthResponse := "resp", error := none }

/-- A KeyAuth failure. -/
def cIssueFail : IssueResult :=
  { success := false, licenseKey := "", keyAuthResponse := "resp",
    error := some "KEYAUTH_ERROR" }

/-- Happy-path environment: valid invoice, issuance succeeds, audit
writes succeed, no concurrent task. -/
def cEnv : Env :=
  { lookup := cLookup, issue := cIssueOk, auditFails := false, concurrentInsert := none }

/-- Same, but KeyAuth fails. -/
def cEnvIssueFail : Env := { cEnv with issue := cIssueFail }

/-- The record a rival session would write for `INV12345`. -/
def cRivalRecord : RedRecord :=
  buildRecord "INV12345" "U2" (some "other") "KEY-0" (some cInvoice) "resp" "discord_bot"

/-- Same as `cEnv`, but a concurrent task records `INV12345` while this
one is between its duplicate check and its insert. -/
def cEnvRace : Env :=
  { cEnv with concurrentInsert := some cRivalRecord }

/-- The empty store. -/
def cState0 : DbState := { redeemed := [], rateLimits := [], audit := [] }

/-- A store in which `INV12345` is already redeemed. -/
def cStateDup : DbState :=
  { cState0 with redeemed := [cRivalRecord] }

/-- A live counter for `(U1, redeem)`: first attempt at time 0, one
attempt used. -/
def cRateRow : RateRow :=
  { userId := "U1", action := "redeem", attempts := 1,
    firstAttempt := 0, lastAttempt := 0, resetAfter := 24 * msPerHour }

/-- A store in which `U1` has exhausted the `redeem` budget. -/
def cStateLimited : DbState :=
  { cState0 with rateLimits := [cRateRow] }

/-! ## Spec vocabulary for the rate-limit window -/

/-- A live counter for `(u, a)` exists: some `rate_limits` row has that
key and a first attempt newer than `now - windowHours`. -/
def liveCounterExists (s : DbState) (now windowHours : Int) (u a : String) : Prop :=
  ∃ r ∈ s.rateLimits, r.userId = u ∧ r.action = a ∧
    now - windowHours * msPerHour < r.firstAttempt

/-- The `UNIQUE(user_id, action)` schema invariant: no two rows of
`rate_limits` share a key. -/
def rateKeysUnique (s : DbState) : Prop :=
  s.rateLimits.Pairwise (fun r₁ r₂ => r₁.userId ≠ r₂.userId ∨ r₁.action ≠ r₂.action)

/-- The row the no-live-counter branch of `checkRateLimit` inserts. -/
def freshRateRow (now w : Int) (u a : String) : RateRow :=
  { userId := u, action := a, attempts := 1, firstAttempt := now,
    lastAttempt := now, resetAfter := now + w * msPerHour }

/-! ## Frame lemmas for the store operations -/

/-- `checkRateLimit` reads and writes only the `rate_limits` table. -/
theorem checkRateLimit_redeemed (s : DbState) (now : Int) (u a : String)
    (maxA : Nat) (w : Int) : (checkRateLimit s now u a maxA w).2.redeemed = s.redeemed := by
  unfold checkRateLimit
  split <;> [rfl; split <;> rfl]

/-- `checkRateLimit` never touches the audit log. -/
theorem checkRateLimit_audit (s : DbState) (now : Int) (u a : String)
    (maxA : Nat) (w : Int) : (checkRateLimit s now u a maxA w).2.audit = s.audit := by
  unfold checkRateLimit
  split <;> [rfl; split <;> rfl]

/-- `logAction` writes only the audit log. -/
theorem logAction_redeemed (s : DbState) (f : Bool) (u a d : String) :
    (logAction s f u a d).redeemed = s.redeemed := by
  unfold logAction auditInsert
  cases f <;> rfl

/-- `logAction` writes only the audit log. -/
theorem logAction_rateLimits (s : DbState) (f : Bool) (u a d : String) :
    (logAction s f u a d).rateLimits = s.rateLimits := by
  unfold logAction auditInsert
  cases f <;> rfl

/-- A concurrent insert touches only the `redeemed_invoices` table. -/
theorem applyConcurrent_rateLimits (s : DbState) (o : Option RedRecord) :
    (applyConcurrent s o).rateLimits = s.rateLimits := by
  unfold applyConcurrent
  cases o with
  | none => rfl
  | some r => dsimp only; split <;> rfl

/-- A concurrent insert touches only the `redeemed_invoices` table. -/
theorem applyConcurrent_audit (s : DbState) (o : Option RedRecord) :
    (applyConcurrent s o).audit = s.audit := by
  unfold applyConcurrent
  cases o with
  | none => rfl
  | some r => dsimp only; split <;> rfl

/-- A successful `markInvoiceRedeemed` appends the one new row. -/
theorem markInvoiceRedeemed_ok (s s' : DbState) (r : RedRecord)
    (h : markInvoiceRedeemed s r = .ok s') :
    s' = { s with redeemed := s.redeemed ++ [r] } := by
  unfold markInvoiceRedeemed at h
  split at h
  · exact absurd h (by simp)
  · simpa using h.symm

/-- The insert hits the unique constraint exactly when a row with the
same invoice id is present. -/
theorem markInvoiceRedeemed_error_iff (s : DbState) (r : RedRecord) :
    markInvoiceRedeemed s r = .error .uniqueConstraint ↔
      isInvoiceRedeemed s r.invoiceId = true := by
  unfold markInvoiceRedeemed isInvoiceRedeemed
  split <;> rename_i h <;> simp_all

/-- `isInvoiceRedeemed` depends only on the `redeemed_invoices` table. -/
theorem isInvoiceRedeemed_congr {s s' : DbState} (h : s.redeemed = s'.redeemed)
    (id : String) : isInvoiceRedeemed s id = isInvoiceRedeemed s' id := by
  unfold isInvoiceRedeemed
  rw [h]

/-! ## C4 — invoice-id sanitization -/

/-- **C4.** `sanitizeInvoiceId` is a pure function over the raw id: it
trims whitespace; it fails with an `InvalidInputError` (a type of the
caller-fault category, disjoint from the remote-lookup error kinds of
`VerifyResult.error`) whenever the trimmed length falls outside [5,50]
or stripping every character outside `[A-Za-z0-9_-]` empties the string;
otherwise it returns the trimmed string with the disallowed characters
stripped.  Moreover `sanitize(" AB-123_xy ") = "AB-123_xy"`. -/
theorem sanitizeInvoiceId_spec (s : String) :
    (((jsTrim s).length < 5 ∨ 50 < (jsTrim s).length) →
        ∃ e : InvalidInputError, sanitizeInvoiceId s = .error e) ∧
    (5 ≤ (jsTrim s).length → (jsTrim s).length ≤ 50 →
        stripDisallowed (jsTrim s) = "" →
        sanitizeInvoiceId s = .error .invalidChars) ∧
    (5 ≤ (jsTrim s).length → (jsTrim s).length ≤ 50 →
        stripDisallowed (jsTrim s) ≠ "" →
        sanitizeInvoiceId s = .ok (stripDisallowed (jsTrim s))) ∧
    sanitizeInvoiceId " AB-123_xy " = .ok "AB-123_xy" := by
  refine ⟨?_, ?_, ?_, rfl⟩
  · intro hlen
    by_cases hs : s = ""
    · exact ⟨.invalidFormat, by simp [sanitizeInvoiceId, hs]⟩
    · refine ⟨.badLength, ?_⟩
      simp only [sanitizeInvoiceId, beq_iff_eq, if_neg hs]
      have : ((jsTrim s).length < 5 || 50 < (jsTrim s).length) = true := by
        rcases hlen with h | h <;> simp [h]
      simp [this]
  · intro h5 h50 hempty
    have hs : s ≠ "" := by
      intro hs
      rw [hs] at h5
      simp [jsTrim] at h5
    simp only [sanitizeInvoiceId, beq_iff_eq, if_neg hs]
    have hlen : ((jsTrim s).length < 5 || 50 < (jsTrim s).length) = false := by
      simp only [Bool.or_eq_false_iff, decide_eq_false_iff_not]
      omega
    simp [hlen, hempty]
  · intro h5 h50 hne
    have hs : s ≠ "" := by
      intro hs
      rw [hs] at h5
      simp [jsTrim] at h5
    simp only [sanitizeInvoiceId, beq_iff_eq, if_neg hs]
    have hlen : ((jsTrim s).length < 5 || 50 < (jsTrim s).length) = false := by
      simp only [Bool.or_eq_false_iff, decide_eq_false_iff_not]
      omega
    simp [hlen, hne]

/-- Witness for C4: a too-short id is rejected, an id of only disallowed
characters is rejected, and the round-trip example sanitizes as the spec
states. -/
theorem sanitizeInvoiceId_spec_witness :
    (∃ e : InvalidInputError, sanitizeInvoiceId "ab" = .error e) ∧
    sanitizeInvoiceId "!!!!!" = .error .invalidChars ∧
    sanitizeInvoiceId " AB-123_xy " = .ok (stripDisallowed (jsTrim " AB-123_xy ")) :=
  ⟨(sanitizeInvoiceId_spec "ab").1 (by decide),
   (sanitizeInvoiceId_spec "!!!!!").2.1 (by decide) (by decide) (by decide),
   (sanitizeInvoiceId_spec " AB-123_xy ").2.2.1 (by decide) (by decide) (by decide)⟩

/-! ## C5 — business validation of fetched invoice data -/

/-- **C5.** `validateInvoice` applies its checks in order, first failing
check winning: (1) `paid` and `status` must both indicate completed
payment, else "not paid" (regardless of the other fields); (2) the
creation timestamp must be within 30 days of the rolling `now`, else
"too old" — the boundary is `createdAt < now - 30 days`, so an invoice
30 days + 1 s old is invalid and one 29 d 23:59:59 old is valid (witness);
(3) the amount must be present and positive, else "invalid amount"; an
invoice passing all three is valid, with no product-identity
restriction. -/
theorem validateInvoice_spec (now : Int) (inv : Invoice) :
    ((inv.paid = false ∨ inv.status ≠ "paid") →
        validateInvoice now inv =
          { valid := false,
            reason := "Invoice is not marked as paid. Please complete your payment first." }) ∧
    (inv.paid = true → inv.status = "paid" →
        inv.createdAt < now - 30 * msPerDay →
        validateInvoice now inv =
          { valid := false,
            reason := "This invoice is too old to redeem. Invoices must be redeemed within 30 days." }) ∧
    (inv.paid = true → inv.status = "paid" →
        now - 30 * msPerDay ≤ inv.createdAt →
        (inv.amount = none ∨ ∃ a : Rat, inv.amount = some a ∧ a ≤ 0) →
        validateInvoice now inv =
          { valid := false, reason := "Invalid invoice amount." }) ∧
    (∀ a : Rat, inv.paid = true → inv.status = "paid" →
        now - 30 * msPerDay ≤ inv.createdAt → inv.amount = some a → 0 < a →
        validateInvoice now inv =
          { valid := true, reason := "Invoice is valid and can be redeemed." }) ∧
    (∀ pn pid : String,
        validateInvoice now { inv with productName := pn, productId := pid } =
          validateInvoice now inv) := by
  refine ⟨?_, ?_, ?_, ?_, ?_⟩
  · intro h
    unfold validateInvoice
    have : (!inv.paid || inv.status != "paid") = true := by
      rcases h with h | h <;> simp [h]
    simp [this]
  · intro hp hs hage
    unfold validateInvoice
    simp [hp, hs, hage]
  · intro hp hs hage ham
    unfold validateInvoice
    have hage' : ¬ (inv.createdAt < now - 30 * msPerDay) := by omega
    rcases ham with h | ⟨a, ha, hle⟩
    · simp [hp, hs, hage', h]
    · simp [hp, hs, hage', ha, hle]
  · intro a hp hs hage ha hpos
    unfold validateInvoice
    have hage' : ¬ (inv.createdAt < now - 30 * msPerDay) := by omega
    have : ¬ (a ≤ 0) := not_le.mpr hpos
    simp [hp, hs, hage', ha, this]
  · intro pn pid
    unfold validateInvoice
    rfl

/-- Witness for C5: with `now = 0`, an unpaid invoice is "not paid" even
though fresh and priced; an invoice exactly 30 days + 1 s old is "too
old"; one 29 d 23:59:59 old passes the age check and is valid; a zero
amount is "invalid amount"; product identity does not matter. -/
theorem validateInvoice_spec_witness :
    validateInvoice 0 { cInvoice with paid := false, createdAt := 0 } =
      { valid := false,
        reason := "Invoice is not marked as paid. Please complete your payment first." } ∧
    validateInvoice 0 { cInvoice with createdAt := -(30 * msPerDay) - 1000 } =
      { valid := false,
        reason := "This invoice is too old to redeem. Invoices must be redeemed within 30 days." } ∧
    validateInvoice 0 { cInvoice with createdAt := -(30 * msPerDay) + 1000 } =
      { valid := true, reason := "Invoice is valid and can be redeemed." } ∧
    validateInvoice 0 { cInvoice with createdAt := 0, amount := some 0 } =
      { valid := false, reason := "Invalid invoice amount." } ∧
    validateInvoice 0 { { cInvoice with createdAt := 0 } with
        productName := "Animal Company", productId := "p2" } =
      validateInvoice 0 { cInvoice with createdAt := 0 } :=
  ⟨(validateInvoice_spec 0 _).1 (Or.inl rfl),
   (validateInvoice_spec 0 _).2.1 rfl rfl (by decide),
   (validateInvoice_spec 0 _).2.2.2.1 20 rfl rfl (by decide) rfl (by decide),
   (validateInvoice_spec 0 _).2.2.1 rfl rfl (by decide)
     (Or.inr ⟨0, rfl, le_refl 0⟩),
   (validateInvoice_spec 0 _).2.2.2.2 "Animal Company" "p2"⟩

/-! ## C8 — best-effort audit logging -/

/-- **C8.** Audit logging is best-effort: a storage failure inside
the insert inside `logAction` is swallowed by its `try/catch` — `logAction`
returns normally (the store unchanged on failure, the entry appended on
success) and never propagates an error; consequently the primary
workflow outcome and the set of recorded redemptions are identical
whether audit writes fail or succeed, on both entry points. -/
theorem logAction_best_effort :
    (∀ (s : DbState) (u a d : String),
        auditInsert s true u a d = .error .storage ∧ logAction s true u a d = s) ∧
    (∀ (s : DbState) (f : Bool) (u a d : String),
        logAction s f u a d =
          if f then s
          else { s with audit := s.audit ++ [{ userId := u, action := a, data := d }] }) ∧
    (∀ (now : Int) (u un inv : String) (env : Env) (s : DbState) (f₁ f₂ : Bool),
        (redeemExecute now u un inv { env with auditFails := f₁ } s).outcome =
          (redeemExecute now u un inv { env with auditFails := f₂ } s).outcome ∧
        (redeemExecute now u un inv { env with auditFails := f₁ } s).state.redeemed =
          (redeemExecute now u un inv { env with auditFails := f₂ } s).state.redeemed ∧
        (modalExecute now u un inv { env with auditFails := f₁ } s).outcome =
          (modalExecute now u un inv { env with auditFails := f₂ } s).outcome) := by
  refine ⟨fun s u a d => ⟨rfl, rfl⟩, fun s f u a d => by cases f <;> rfl, ?_⟩
  intro now u un inv env s f₁ f₂
  refine ⟨?_, ?_, ?_⟩
  · simp only [redeemExecute]
    split <;> [rfl; skip]
    split <;> [rfl; skip]
    split <;> [rfl; skip]
    split <;> [rfl; skip]
    split <;> rfl
  · simp only [redeemExecute]
    split <;> [rfl; skip]
    split <;> [rfl; skip]
    split
    · simp only [logAction_redeemed]
    · split
      · simp only [logAction_redeemed]
      · split <;> simp only [logAction_redeemed]
  · simp only [modalExecute]
    split <;> [rfl; skip]
    split <;> [rfl; skip]
    split <;> [rfl; skip]
    split <;> [rfl; skip]
    split <;> rfl

/-! ## C2 — rate-limit window semantics -/

/-- The boolean `WHERE` predicate agrees with the spec-side description
of a live counter row. -/
theorem liveRatePred_eq_true_iff (now w : Int) (u a : String) (r : RateRow) :
    liveRatePred now w u a r = true ↔
      r.userId = u ∧ r.action = a ∧ now - w * msPerHour < r.firstAttempt := by
  simp [liveRatePred, and_assoc]

/-- The `SELECT` comes back empty exactly when no live counter exists. -/
theorem find_live_eq_none (s : DbState) (now w : Int) (u a : String) :
    s.rateLimits.find? (liveRatePred now w u a) = none ↔
      ¬ liveCounterExists s now w u a := by
  rw [List.find?_eq_none]
  simp [liveCounterExists, liveRatePred_eq_true_iff]

/-- With unique keys, a member live row is the one the `SELECT` finds. -/
theorem find_live_of_mem (l : List RateRow) (now w : Int) (u a : String) (r : RateRow)
    (hwf : l.Pairwise (fun r₁ r₂ => r₁.userId ≠ r₂.userId ∨ r₁.action ≠ r₂.action))
    (hmem : r ∈ l) (hu : r.userId = u) (ha : r.action = a)
    (hlive : now - w * msPerHour < r.firstAttempt) :
    l.find? (liveRatePred now w u a) = some r := by
  have hpred : liveRatePred now w u a r = true :=
    (liveRatePred_eq_true_iff now w u a r).mpr ⟨hu, ha, hlive⟩
  induction l with
  | nil => cases hmem
  | cons x xs ih =>
    rcases List.mem_cons.mp hmem with rfl | hmem'
    · rw [List.find?_cons_of_pos _ hpred]
    · have hkey := (List.pairwise_cons.mp hwf).1 r hmem'
      have hx : ¬ liveRatePred now w u a x = true := by
        rw [liveRatePred_eq_true_iff]
        rintro ⟨hxu, hxa, -⟩
        rcases hkey with h | h
        · exact h (hxu.trans hu.symm)
        · exact h (hxa.trans ha.symm)
      rw [List.find?_cons_of_neg _ hx]
      exact ih (List.pairwise_cons.mp hwf).2 hmem'

/-- **C2.** Window semantics of `checkRateLimit` under the
unique-key schema invariant: with no live counter for `(u, a)` (none exists, or
the existing window has expired), it allows with `attempts = 1` and
`resetAfter = now + windowHours`, writing a fresh counter; with a live
counter below the cap it allows and increments that counter; with a live
counter at or above the cap it denies and leaves the store untouched. -/
theorem checkRateLimit_spec (s : DbState) (now : Int) (u a : String)
    (maxA : Nat) (w : Int) (hwf : rateKeysUnique s) :
    (¬ liveCounterExists s now w u a →
        checkRateLimit s now u a maxA w =
          ({ allowed := true, attempts := 1, maxAttempts := maxA,
             resetAfter := now + w * msPerHour },
           { s with rateLimits :=
              insertOrReplaceRate s.rateLimits (freshRateRow now w u a) })) ∧
    (∀ r ∈ s.rateLimits, r.userId = u → r.action = a →
        now - w * msPerHour < r.firstAttempt →
        (r.attempts < maxA →
            checkRateLimit s now u a maxA w =
              ({ allowed := true, attempts := r.attempts + 1, maxAttempts := maxA,
                 resetAfter := r.resetAfter },
               { s with rateLimits := incrementRate s.rateLimits u a now })) ∧
        (maxA ≤ r.attempts →
            checkRateLimit s now u a maxA w =
              ({ allowed := false, attempts := r.attempts, maxAttempts := maxA,
                 resetAfter := r.resetAfter }, s))) := by
  constructor
  · intro hnone
    have hfind : s.rateLimits.find? (liveRatePred now w u a) = none :=
      (find_live_eq_none s now w u a).mpr hnone
    simp only [checkRateLimit, hfind, freshRateRow]
  · intro r hmem hu ha hlive
    have hfind : s.rateLimits.find? (liveRatePred now w u a) = some r :=
      find_live_of_mem s.rateLimits now w u a r hwf hmem hu ha hlive
    constructor
    · intro hlt
      simp only [checkRateLimit, hfind]
      rw [if_neg (Nat.not_le.mpr hlt)]
    · intro hge
      simp only [checkRateLimit, hfind]
      rw [if_pos hge]

/-- Witness for C2: on the empty store the first call allows with one
attempt and a fresh 24-hour reset; on a store with a live one-attempt
counter, a cap of 5 admits and increments while a cap of 1 denies and
changes nothing. -/
theorem checkRateLimit_spec_witness :
    checkRateLimit cState0 0 "U1" "redeem" 1 24 =
      ({ allowed := true, attempts := 1, maxAttempts := 1,
         resetAfter := 24 * msPerHour },
       { cState0 with rateLimits :=
          insertOrReplaceRate cState0.rateLimits (freshRateRow 0 24 "U1" "redeem") }) ∧
    checkRateLimit cStateLimited 1000 "U1" "redeem" 5 24 =
      ({ allowed := true, attempts := 2, maxAttempts := 5,
         resetAfter := 24 * msPerHour },
       { cStateLimited with
          rateLimits := incrementRate cStateLimited.rateLimits "U1" "redeem" 1000 }) ∧
    checkRateLimit cStateLimited 1000 "U1" "redeem" 1 24 =
      ({ allowed := false, attempts := 1, maxAttempts := 1,
         resetAfter := 24 * msPerHour }, cStateLimited) := by
  refine ⟨?_, ?_, ?_⟩
  · have h := (checkRateLimit_spec cState0 0 "U1" "redeem" 1 24
      (by simp [rateKeysUnique, cState0])).1
      (by simp [liveCounterExists, cState0])
    simpa using h
  · have h := ((checkRateLimit_spec cStateLimited 1000 "U1" "redeem" 5 24
      (by simp [rateKeysUnique, cStateLimited, cState0])).2 cRateRow
      (by simp [cStateLimited, cState0]) rfl rfl (by decide)).1 (by decide)
    simpa [cRateRow] using h
  · have h := ((checkRateLimit_spec cStateLimited 1000 "U1" "redeem" 1 24
      (by simp [rateKeysUnique, cStateLimited, cState0])).2 cRateRow
      (by simp [cStateLimited, cState0]) rfl rfl (by decide)).2 (by decide)
    simpa [cRateRow] using h

/-! ## Orchestrator frame lemmas -/

/-- No absent concurrent task: the store is untouched. -/
theorem applyConcurrent_none (s : DbState) : applyConcurrent s none = s := rfl

/-- The record built for the insert carries the raw invoice id. -/
theorem buildRecord_invoiceId (invoiceId userId : String) (un : Option String)
    (key : String) (d : Option Invoice) (resp meta : String) :
    (buildRecord invoiceId userId un key d resp meta).invoiceId = invoiceId := rfl

/-- When no row with the invoice id exists, the insert succeeds and
appends the row. -/
theorem markInvoiceRedeemed_of_absent (s : DbState) (r : RedRecord)
    (h : isInvoiceRedeemed s r.invoiceId = false) :
    markInvoiceRedeemed s r = .ok { s with redeemed := s.redeemed ++ [r] } := by
  have h' : (s.redeemed.any fun r0 => r0.invoiceId == r.invoiceId) = false := h
  unfold markInvoiceRedeemed
  rw [h']
  rfl

/-- A whole slash-path run changes the `rate_limits` table exactly as
its opening `checkRateLimit` call does. -/
theorem redeemExecute_rateLimits (now : Int) (u un inv : String) (env : Env) (s : DbState) :
    (redeemExecute now u un inv env s).state.rateLimits =
      (checkRateLimit s now u "redeem" redemptionsPerDay 24).2.rateLimits := by
  simp only [redeemExecute]
  split <;> [rfl; skip]
  split <;> [rfl; skip]
  split
  · rw [logAction_rateLimits, applyConcurrent_rateLimits]
  · split
    · rw [logAction_rateLimits, applyConcurrent_rateLimits]
    · split
      · rw [logAction_rateLimits, applyConcurrent_rateLimits]
      · rename_i s3 heq
        rw [logAction_rateLimits, markInvoiceRedeemed_ok _ _ _ heq,
          applyConcurrent_rateLimits]

/-- A whole modal-path run changes the `rate_limits` table exactly as
its opening `checkRateLimit` call does. -/
theorem modalExecute_rateLimits (now : Int) (u un inv : String) (env : Env) (s : DbState) :
    (modalExecute now u un inv env s).state.rateLimits =
      (checkRateLimit s now u "license_redemption" 1 24).2.rateLimits := by
  simp only [modalExecute]
  split <;> [rfl; skip]
  split <;> [rfl; skip]
  split
  · rw [applyConcurrent_rateLimits]
  · split
    · rw [applyConcurrent_rateLimits]
    · split
      · rw [applyConcurrent_rateLimits]
      · rename_i s3 heq
        rw [logAction_rateLimits, markInvoiceRedeemed_ok _ _ _ heq,
          applyConcurrent_rateLimits]

/-! ## C3 — rate-limit denial short-circuits the workflow -/

/-- If every key-matching row of the store is stale at `now`, the
`SELECT` of `checkRateLimit` comes back empty. -/
theorem find_live_eq_none_of_stale (l : List RateRow) (now w : Int) (u a : String)
    (h : ∀ r ∈ l, r.userId = u → r.action = a → r.firstAttempt ≤ now - w * msPerHour) :
    l.find? (liveRatePred now w u a) = none := by
  rw [List.find?_eq_none]
  intro x hx
  rw [liveRatePred_eq_true_iff]
  rintro ⟨hxu, hxa, hlive⟩
  have := h x hx hxu hxa
  omega

/-- After the fresh insert at `now₁`, a second `SELECT` within the
window finds exactly the fresh counter. -/
theorem find_after_insertOrReplace (l : List RateRow) (now₁ now₂ w : Int) (u a : String)
    (hwithin : now₂ - w * msPerHour < now₁) :
    (insertOrReplaceRate l (freshRateRow now₁ w u a)).find? (liveRatePred now₂ w u a) =
      some (freshRateRow now₁ w u a) := by
  unfold insertOrReplaceRate
  rw [List.find?_append]
  have h1 : (l.filter fun r =>
      !(r.userId == (freshRateRow now₁ w u a).userId &&
        r.action == (freshRateRow now₁ w u a).action)).find?
        (liveRatePred now₂ w u a) = none := by
    rw [List.find?_eq_none]
    intro x hx
    have hxf := (List.mem_filter.mp hx).2
    rw [liveRatePred_eq_true_iff]
    rintro ⟨hxu, hxa, -⟩
    simp [freshRateRow, hxu, hxa] at hxf
  rw [h1]
  have h2 : liveRatePred now₂ w u a (freshRateRow now₁ w u a) = true := by
    rw [liveRatePred_eq_true_iff]
    exact ⟨rfl, rfl, by simpa [freshRateRow] using hwithin⟩
  simp [List.find?_cons_of_pos _ h2]

/-- **C3.** With `maxAttempts = 1` per 24 h, a second redemption attempt
by the same requester within the window — whatever the invoice or the
collaborators do — ends in the `RATE_LIMITED` outcome carrying the first
reset time of the first call, and its trace is the rate-limit check alone: neither
the duplicate check nor any verification/issuance call happens.  This
holds on the slash path (action `redeem`) and on the modal path
(action `license_redemption`) alike, each over its own counter. -/
theorem second_call_rate_limited (s : DbState) (now₁ now₂ : Int)
    (u un₁ un₂ inv₁ inv₂ : String) (env₁ env₂ : Env)
    (hfresh : ∀ r ∈ s.rateLimits, r.userId = u → r.action = "redeem" →
        r.firstAttempt ≤ now₁ - 24 * msPerHour)
    (hfreshM : ∀ r ∈ s.rateLimits, r.userId = u → r.action = "license_redemption" →
        r.firstAttempt ≤ now₁ - 24 * msPerHour)
    (hwithin : now₂ - now₁ < 24 * msPerHour) :
    ((redeemExecute now₂ u un₂ inv₂ env₂
        (redeemExecute now₁ u un₁ inv₁ env₁ s).state).outcome =
      .rateLimited 1 redemptionsPerDay (now₁ + 24 * msPerHour)) ∧
    ((redeemExecute now₂ u un₂ inv₂ env₂
        (redeemExecute now₁ u un₁ inv₁ env₁ s).state).events = [.rateLimitCheck]) ∧
    ((modalExecute now₂ u un₂ inv₂ env₂
        (modalExecute now₁ u un₁ inv₁ env₁ s).state).outcome =
      .rateLimited 1 1 (now₁ + 24 * msPerHour)) ∧
    ((modalExecute now₂ u un₂ inv₂ env₂
        (modalExecute now₁ u un₁ inv₁ env₁ s).state).events = [.rateLimitCheck]) := by
  have hwithin' : now₂ - 24 * msPerHour < now₁ := by omega
  -- slash path
  have hstate1 : (redeemExecute now₁ u un₁ inv₁ env₁ s).state.rateLimits =
      insertOrReplaceRate s.rateLimits (freshRateRow now₁ 24 u "redeem") := by
    rw [redeemExecute_rateLimits]
    have hnone : s.rateLimits.find? (liveRatePred now₁ 24 u "redeem") = none :=
      find_live_eq_none_of_stale s.rateLimits now₁ 24 u "redeem" hfresh
    simp only [checkRateLimit, hnone, freshRateRow]
  have hstate1M : (modalExecute now₁ u un₁ inv₁ env₁ s).state.rateLimits =
      insertOrReplaceRate s.rateLimits (freshRateRow now₁ 24 u "license_redemption") := by
    rw [modalExecute_rateLimits]
    have hnone : s.rateLimits.find? (liveRatePred now₁ 24 u "license_redemption") = none :=
      find_live_eq_none_of_stale s.rateLimits now₁ 24 u "license_redemption" hfreshM
    simp only [checkRateLimit, hnone, freshRateRow]
  set t := (redeemExecute now₁ u un₁ inv₁ env₁ s).state with ht
  set tM := (modalExecute now₁ u un₁ inv₁ env₁ s).state with htM
  have hfind2 : t.rateLimits.find? (liveRatePred now₂ 24 u "redeem") =
      some (freshRateRow now₁ 24 u "redeem") := by
    rw [hstate1]
    exact find_after_insertOrReplace s.rateLimits now₁ now₂ 24 u "redeem" hwithin'
  have hfind2M : tM.rateLimits.find? (liveRatePred now₂ 24 u "license_redemption") =
      some (freshRateRow now₁ 24 u "license_redemption") := by
    rw [hstate1M]
    exact find_after_insertOrReplace s.rateLimits now₁ now₂ 24 u "license_redemption" hwithin'
  refine ⟨?_, ?_, ?_, ?_⟩ <;>
    simp [redeemExecute, modalExecute, checkRateLimit, hfind2, hfind2M,
      redemptionsPerDay, freshRateRow]

/-- Witness for C3: a fresh user redeems at time 0 (the store is empty,
so every counter is vacuously stale) and is denied one millisecond later
on both entry points. -/
theorem second_call_rate_limited_witness :
    ((redeemExecute 1 "U1" "usertag" "INVX9999" cEnv
        (redeemExecute 0 "U1" "usertag" "INV12345" cEnv cState0).state).outcome =
      .rateLimited 1 redemptionsPerDay (24 * msPerHour)) ∧
    ((redeemExecute 1 "U1" "usertag" "INVX9999" cEnv
        (redeemExecute 0 "U1" "usertag" "INV12345" cEnv cState0).state).events =
      [.rateLimitCheck]) := by
  have h := second_call_rate_limited cState0 0 1 "U1" "usertag" "usertag"
    "INV12345" "INVX9999" cEnv cEnv
    (by intro r hr; simp [cState0] at hr) (by intro r hr; simp [cState0] at hr)
    (by decide)
  exact ⟨by simpa using h.1, h.2.1⟩

/-! ## C6 — issuance failure does not consume the invoice -/

/-- **C6.** When KeyAuth reports failure after a successful verification,
no redemption row is written: the run exits `ISSUANCE_FAILED`, the
`redeemed_invoices` table is unchanged and `isInvoiceRedeemed` stays
false for the invoice; a later retry — admitted by the rate limiter and
with issuance now succeeding — reaches `SUCCESS` for the same invoice. -/
theorem issuance_failure_not_consumed (now now' : Int) (u un un' inv : String)
    (env env' : Env) (s : DbState)
    (hrl : (checkRateLimit s now u "redeem" redemptionsPerDay 24).1.allowed = true)
    (hdup : isInvoiceRedeemed s inv = false)
    (hver : (verifyInvoice now env.lookup inv).valid = true)
    (hiss : env.issue.success = false)
    (hconc : env.concurrentInsert = none)
    (hrl' : (checkRateLimit (redeemExecute now u un inv env s).state now' u "redeem"
        redemptionsPerDay 24).1.allowed = true)
    (hver' : (verifyInvoice now' env'.lookup inv).valid = true)
    (hiss' : env'.issue.success = true)
    (hconc' : env'.concurrentInsert = none) :
    (redeemExecute now u un inv env s).outcome = .issuanceFailed env.issue.error ∧
    (redeemExecute now u un inv env s).state.redeemed = s.redeemed ∧
    isInvoiceRedeemed (redeemExecute now u un inv env s).state inv = false ∧
    (redeemExecute now' u un' inv env'
        (redeemExecute now u un inv env s).state).outcome =
      .success env'.issue.licenseKey := by
  have hdup1 : isInvoiceRedeemed
      (checkRateLimit s now u "redeem" redemptionsPerDay 24).2 inv = false :=
    (isInvoiceRedeemed_congr (checkRateLimit_redeemed s now u "redeem"
      redemptionsPerDay 24) inv).trans hdup
  have houtcome : (redeemExecute now u un inv env s).outcome =
      .issuanceFailed env.issue.error := by
    simp [redeemExecute, hrl, hdup1, hconc, hver, hiss]
  have hred : (redeemExecute now u un inv env s).state.redeemed = s.redeemed := by
    simp [redeemExecute, hrl, hdup1, hconc, hver, hiss, applyConcurrent_none,
      logAction_redeemed, checkRateLimit_redeemed]
  have hnot : isInvoiceRedeemed (redeemExecute now u un inv env s).state inv = false :=
    (isInvoiceRedeemed_congr hred inv).trans hdup
  refine ⟨houtcome, hred, hnot, ?_⟩
  set t := (redeemExecute now u un inv env s).state with ht
  have hdup2 : isInvoiceRedeemed
      (checkRateLimit t now' u "redeem" redemptionsPerDay 24).2 inv = false :=
    (isInvoiceRedeemed_congr (checkRateLimit_redeemed t now' u "redeem"
      redemptionsPerDay 24) inv).trans hnot
  have hmark := markInvoiceRedeemed_of_absent
    (checkRateLimit t now' u "redeem" redemptionsPerDay 24).2
    (buildRecord inv u (some un') env'.issue.licenseKey
      (verifyInvoice now' env'.lookup inv).invoiceData env'.issue.keyAuthResponse
      "discord_bot")
    (by rw [buildRecord_invoiceId]; exact hdup2)
  simp [redeemExecute, hrl', hdup2, hconc', hver', hiss', applyConcurrent_none, hmark]

/-- Witness for C6: on the empty store, a first attempt on `INV12345`
fails at issuance and leaves the invoice unredeemed; the retry a full
window later succeeds. -/
theorem issuance_failure_not_consumed_witness :
    (redeemExecute 0 "U1" "usertag" "INV12345" cEnvIssueFail cState0).outcome =
      .issuanceFailed (some "KEYAUTH_ERROR") ∧
    isInvoiceRedeemed
      (redeemExecute 0 "U1" "usertag" "INV12345" cEnvIssueFail cState0).state
      "INV12345" = false ∧
    (redeemExecute (25 * msPerHour) "U1" "usertag" "INV12345" cEnv
        (redeemExecute 0 "U1" "usertag" "INV12345" cEnvIssueFail cState0).state).outcome =
      .success "KEY-1" := by
  have h := issuance_failure_not_consumed 0 (25 * msPerHour) "U1" "usertag" "usertag"
    "INV12345" cEnvIssueFail cEnv cState0
    (by decide) (by decide) (by decide) (by decide) (by decide)
    (by decide) (by decide) (by decide) (by decide)
  exact ⟨h.1, h.2.2.1, h.2.2.2⟩

/-! ## C7 -- the already-redeemed exit -/

/-- Counterexample to C7 as stated: with `INV12345` already recorded and
the rate limiter open, the slash run exits `ALREADY_REDEEMED` but writes
*no* audit entry at all -- in particular no `redemption_failed` one. -/
theorem already_redeemed_audit_counterexample :
    (redeemExecute 0 "U1" "usertag" "INV12345" cEnv cStateDup).outcome =
      .alreadyRedeemed ∧
    (redeemExecute 0 "U1" "usertag" "INV12345" cEnv cStateDup).state.audit = [] := by
  decide

/-- **C7 (amended).** When the duplicate check reports the invoice as
redeemed, both entry points exit `ALREADY_REDEEMED` *without writing any
audit entry* (the audit log is left unchanged), and make no verification
or issuance call: the trace stops at the duplicate check. -/
theorem already_redeemed_exit (now : Int) (u un inv : String) (env : Env) (s : DbState)
    (hrl : (checkRateLimit s now u "redeem" redemptionsPerDay 24).1.allowed = true)
    (hdup : isInvoiceRedeemed s inv = true) :
    (redeemExecute now u un inv env s).outcome = .alreadyRedeemed ∧
    (redeemExecute now u un inv env s).state.audit = s.audit ∧
    (redeemExecute now u un inv env s).events =
      [.rateLimitCheck, .duplicateCheck] ∧
    ((checkRateLimit s now u "license_redemption" 1 24).1.allowed = true →
      (modalExecute now u un inv env s).outcome = .alreadyRedeemed ∧
      (modalExecute now u un inv env s).state.audit = s.audit ∧
      (modalExecute now u un inv env s).events =
        [.rateLimitCheck, .duplicateCheck]) := by
  have hdup1 : isInvoiceRedeemed
      (checkRateLimit s now u "redeem" redemptionsPerDay 24).2 inv = true :=
    (isInvoiceRedeemed_congr (checkRateLimit_redeemed s now u "redeem"
      redemptionsPerDay 24) inv).trans hdup
  refine ⟨?_, ?_, ?_, ?_⟩
  · simp [redeemExecute, hrl, hdup1]
  · simp [redeemExecute, hrl, hdup1, checkRateLimit_audit]
  · simp [redeemExecute, hrl, hdup1]
  · intro hrlM
    have hdupM : isInvoiceRedeemed
        (checkRateLimit s now u "license_redemption" 1 24).2 inv = true :=
      (isInvoiceRedeemed_congr (checkRateLimit_redeemed s now u "license_redemption"
        1 24) inv).trans hdup
    refine ⟨?_, ?_, ?_⟩
    · simp [modalExecute, hrlM, hdupM]
    · simp [modalExecute, hrlM, hdupM, checkRateLimit_audit]
    · simp [modalExecute, hrlM, hdupM]

/-- Witness for C7 (amended), at the concrete duplicate store. -/
theorem already_redeemed_exit_witness :
    (redeemExecute 0 "U1" "usertag" "INV12345" cEnv cStateDup).events =
      [.rateLimitCheck, .duplicateCheck] ∧
    (modalExecute 0 "U1" "usertag" "INV12345" cEnv cStateDup).state.audit =
      cStateDup.audit := by
  have h := already_redeemed_exit 0 "U1" "usertag" "INV12345" cEnv cStateDup
    (by decide) (by decide)
  exact ⟨h.2.2.1, (h.2.2.2 (by decide)).2.1⟩

/-! ## C1 -- losing the record-step race -/

/-- Counterexample to C1 as stated: start from the empty store, a valid
invoice and a successful issuance, with a rival session committing
`INV12345` between the duplicate check of this run and its insert.  The
insert hits the unique constraint, the error escapes to the top-level
catch, and the run ends in the generic unexpected-error outcome -- not
`ALREADY_REDEEMED`. -/
theorem record_race_counterexample :
    (redeemExecute 0 "U1" "usertag" "INV12345" cEnvRace cState0).outcome ≠
      Outcome.alreadyRedeemed ∧
    (redeemExecute 0 "U1" "usertag" "INV12345" cEnvRace cState0).outcome =
      Outcome.unexpectedError := by
  decide

/-- **C1 (amended).** If the final recording step fails because the
invoice id is already present (a lost race for the same invoice), the
slash-path orchestrator exits with the generic unexpected-error outcome
(`REDEMPTION_ERROR` embed), not `ALREADY_REDEEMED`; it attempts a
`redemption_error` audit write, and the just-issued license key is
orphaned -- the run adds no redemption row of its own. -/
theorem record_race_unexpected_error (now : Int) (u un inv : String)
    (env : Env) (s : DbState)
    (hrl : (checkRateLimit s now u "redeem" redemptionsPerDay 24).1.allowed = true)
    (hdup : isInvoiceRedeemed s inv = false)
    (hver : (verifyInvoice now env.lookup inv).valid = true)
    (hiss : env.issue.success = true)
    (hrace : isInvoiceRedeemed
        (applyConcurrent (checkRateLimit s now u "redeem" redemptionsPerDay 24).2
          env.concurrentInsert) inv = true) :
    (redeemExecute now u un inv env s).outcome = .unexpectedError ∧
    (redeemExecute now u un inv env s).events =
      [.rateLimitCheck, .duplicateCheck, .verifyCall, .issueCall, .recordCall,
       .auditWrite "redemption_error"] ∧
    (redeemExecute now u un inv env s).state.redeemed =
      (applyConcurrent (checkRateLimit s now u "redeem" redemptionsPerDay 24).2
        env.concurrentInsert).redeemed := by
  have hdup1 : isInvoiceRedeemed
      (checkRateLimit s now u "redeem" redemptionsPerDay 24).2 inv = false :=
    (isInvoiceRedeemed_congr (checkRateLimit_redeemed s now u "redeem"
      redemptionsPerDay 24) inv).trans hdup
  have hmark : markInvoiceRedeemed
      (applyConcurrent (checkRateLimit s now u "redeem" redemptionsPerDay 24).2
        env.concurrentInsert)
      (buildRecord inv u (some un) env.issue.licenseKey
        (verifyInvoice now env.lookup inv).invoiceData env.issue.keyAuthResponse
        "discord_bot") = .error .uniqueConstraint :=
    (markInvoiceRedeemed_error_iff _ _).mpr (by rw [buildRecord_invoiceId]; exact hrace)
  refine ⟨?_, ?_, ?_⟩
  · simp [redeemExecute, hrl, hdup1, hver, hiss, hmark]
  · simp [redeemExecute, hrl, hdup1, hver, hiss, hmark]
  · simp [redeemExecute, hrl, hdup1, hver, hiss, hmark, logAction_redeemed]

/-- Witness for C1 (amended), at the concrete race fixture. -/
theorem record_race_unexpected_error_witness :
    (redeemExecute 0 "U1" "usertag" "INV12345" cEnvRace cState0).outcome =
      .unexpectedError ∧
    (redeemExecute 0 "U1" "usertag" "INV12345" cEnvRace cState0).events =
      [.rateLimitCheck, .duplicateCheck, .verifyCall, .issueCall, .recordCall,
       .auditWrite "redemption_error"] := by
  have h := record_race_unexpected_error 0 "U1" "usertag" "INV12345" cEnvRace cState0
    (by decide) (by decide) (by decide) (by decide) (by decide)
  exact ⟨h.1, h.2.1⟩

/-! ## C9 -- the duplicate guard keys on the raw id -/

/-- **C9.** The duplicate guard and the unique constraint operate on the
raw user-supplied id, while the storefront lookup inside `verifyInvoice`
uses the sanitized form: two distinct raw inputs that sanitize to the
same invoice id are distinct invoices for the guard.  With `raw1`
already recorded and `raw2` a different raw spelling of the same
sanitized id, a run on `raw2` passes the duplicate check, succeeds, and
leaves the store holding a redemption row for each raw spelling. -/
theorem duplicate_guard_raw_id (now : Int) (u un raw1 raw2 : String)
    (env : Env) (s : DbState)
    (hne : raw1 ≠ raw2)
    (hsan : sanitizeInvoiceId raw1 = sanitizeInvoiceId raw2)
    (h1 : isInvoiceRedeemed s raw1 = true)
    (h2 : isInvoiceRedeemed s raw2 = false)
    (hrl : (checkRateLimit s now u "redeem" redemptionsPerDay 24).1.allowed = true)
    (hver : (verifyInvoice now env.lookup raw2).valid = true)
    (hiss : env.issue.success = true)
    (hconc : env.concurrentInsert = none) :
    (redeemExecute now u un raw2 env s).outcome = .success env.issue.licenseKey ∧
    isInvoiceRedeemed (redeemExecute now u un raw2 env s).state raw1 = true ∧
    isInvoiceRedeemed (redeemExecute now u un raw2 env s).state raw2 = true := by
  have hdup1 : isInvoiceRedeemed
      (checkRateLimit s now u "redeem" redemptionsPerDay 24).2 raw2 = false :=
    (isInvoiceRedeemed_congr (checkRateLimit_redeemed s now u "redeem"
      redemptionsPerDay 24) raw2).trans h2
  have hmark := markInvoiceRedeemed_of_absent
    (checkRateLimit s now u "redeem" redemptionsPerDay 24).2
    (buildRecord raw2 u (some un) env.issue.licenseKey
      (verifyInvoice now env.lookup raw2).invoiceData env.issue.keyAuthResponse
      "discord_bot")
    (by rw [buildRecord_invoiceId]; exact hdup1)
  have hred : (redeemExecute now u un raw2 env s).state.redeemed =
      s.redeemed ++ [buildRecord raw2 u (some un) env.issue.licenseKey
        (verifyInvoice now env.lookup raw2).invoiceData env.issue.keyAuthResponse
        "discord_bot"] := by
    simp [redeemExecute, hrl, hdup1, hconc, hver, hiss, applyConcurrent_none,
      hmark, logAction_redeemed, checkRateLimit_redeemed]
  refine ⟨?_, ?_, ?_⟩
  · simp [redeemExecute, hrl, hdup1, hconc, hver, hiss, applyConcurrent_none, hmark]
  · have h1x : (s.redeemed.any fun r => r.invoiceId == raw1) = true := h1
    simp [isInvoiceRedeemed, hred, List.any_append, h1x]
  · simp [isInvoiceRedeemed, hred, List.any_append, buildRecord]

/-- Witness for C9: `INV12345` is recorded; the raw spelling
`INV12345!` sanitizes to the same id, passes the duplicate check, and is
redeemed a second time. -/
theorem duplicate_guard_raw_id_witness :
    (redeemExecute 0 "U1" "usertag" "INV12345!" cEnv cStateDup).outcome =
      .success "KEY-1" ∧
    isInvoiceRedeemed (redeemExecute 0 "U1" "usertag" "INV12345!" cEnv cStateDup).state
      "INV12345" = true ∧
    isInvoiceRedeemed (redeemExecute 0 "U1" "usertag" "INV12345!" cEnv cStateDup).state
      "INV12345!" = true := by
  have h := duplicate_guard_raw_id 0 "U1" "usertag" "INV12345" "INV12345!" cEnv cStateDup
    (by decide) rfl (by decide) (by decide) (by decide) (by decide)
    (by decide) (by decide)
  exact h

/-! ## C10 -- the two entry points consume independent budgets -/

/-- **C10.** Rate-limit counters are keyed by `(user_id, action)`; the
slash path consumes action `redeem` and the modal path action
`license_redemption`.  A user holding a live `redeem` counter at the cap
is denied by the slash path (which leaves the store untouched), while
the modal path -- for the very same user, moment and store -- passes its
rate-limit stage and can never end rate-limited in that run. -/
theorem entry_points_independent_budgets (now : Int) (u un inv : String)
    (env envM : Env) (s : DbState) (hwf : rateKeysUnique s) (r : RateRow)
    (hmem : r ∈ s.rateLimits) (hu : r.userId = u) (ha : r.action = "redeem")
    (hlive : now - 24 * msPerHour < r.firstAttempt)
    (hcap : redemptionsPerDay ≤ r.attempts)
    (hnoneM : ¬ liveCounterExists s now 24 u "license_redemption") :
    (redeemExecute now u un inv env s).outcome =
      .rateLimited r.attempts redemptionsPerDay r.resetAfter ∧
    (redeemExecute now u un inv env s).state = s ∧
    (checkRateLimit s now u "license_redemption" 1 24).1.allowed = true ∧
    (∀ a2 m2 t2, (modalExecute now u un inv envM s).outcome ≠
      .rateLimited a2 m2 t2) := by
  have hfind : s.rateLimits.find? (liveRatePred now 24 u "redeem") = some r :=
    find_live_of_mem s.rateLimits now 24 u "redeem" r hwf hmem hu ha hlive
  have hfindM : s.rateLimits.find? (liveRatePred now 24 u "license_redemption") = none :=
    (find_live_eq_none s now 24 u "license_redemption").mpr hnoneM
  have hallowM : (checkRateLimit s now u "license_redemption" 1 24).1.allowed = true := by
    simp [checkRateLimit, hfindM]
  refine ⟨?_, ?_, hallowM, ?_⟩
  · simp [redeemExecute, checkRateLimit, hfind, hcap]
  · simp [redeemExecute, checkRateLimit, hfind, hcap]
  · intro a2 m2 t2
    simp only [modalExecute, hallowM, Bool.not_true]
    split
    · simp_all
    · split
      · simp
      · split
        · simp
        · split
          · simp
          · split <;> simp

/-- Witness for C10: `U1` has exhausted the slash budget in
`cStateLimited`, is denied there, yet the modal path admits the same
user at the same moment. -/
theorem entry_points_independent_budgets_witness :
    (redeemExecute 1000 "U1" "usertag" "INV12345" cEnv cStateLimited).outcome =
      .rateLimited 1 redemptionsPerDay (24 * msPerHour) ∧
    (checkRateLimit cStateLimited 1000 "U1" "license_redemption" 1 24).1.allowed =
      true := by
  have h := entry_points_independent_budgets 1000 "U1" "usertag" "INV12345"
    cEnv cEnv cStateLimited
    (by simp [rateKeysUnique, cStateLimited, cState0]) cRateRow
    (by simp [cStateLimited, cState0]) rfl rfl (by decide) (by decide)
    (by simp [liveCounterExists, cStateLimited, cState0, cRateRow])
  exact ⟨h.1, h.2.2.1⟩

end LexisBot
